import Mathlib

/-
Verification of the enyo Selection manager (enyo/Selection.js).

The embedding models the component state (the published multi flag, the
selected map, and lastSelected) and its public operations: clear,
isSelected, setByKey, deselect, select, toggle, getSelected, remove,
and the multiChanged hook.  Row keys are taken to be numeric row
indices (Nat), the primary use documented in the source; the selected
object is an association list of its own properties; the three fired
notifications (onSelect, onDeselect, onChange) are returned as an event
list in emission order.
-/

/-- A JavaScript value as used for selection payloads: the data argument
of setByKey, the values stored in the selected map, and the data field of
emitted events.  The undefined constructor stands for an absent argument
or a missing property; obj stands for an arbitrary data object. -/
inductive JSData where
  | undefined : JSData
  | bool : Bool → JSData
  | num : Int → JSData
  | obj : Nat → JSData
deriving DecidableEq

/-- JavaScript truthiness of a JSData value. -/
def JSData.truthy : JSData → Bool
  | .undefined => false
  | .bool b => b
  | .num n => n != 0
  | .obj _ => true

/-- The JavaScript expression data or-else true from setByKey:
the value itself when truthy, the boolean true otherwise. -/
def jsOrTrue (d : JSData) : JSData :=
  if d.truthy then d else .bool true

/-- Lookup of a numeric property of the selected object, which is
represented as an association list of its own properties. -/
def objGet : List (Nat × JSData) → Nat → Option JSData
  | [], _ => none
  | (r, v) :: rest, k => if r = k then some v else objGet rest k

/-- Property write: overwrite the entry for the key if present,
otherwise add a new entry. -/
def objSet : List (Nat × JSData) → Nat → JSData → List (Nat × JSData)
  | [], k, v => [(k, v)]
  | (r, w) :: rest, k, v =>
    if r = k then (k, v) :: rest else (r, w) :: objSet rest k v

/-- The JavaScript delete operator: drop the entry for the key. -/
def objDelete : List (Nat × JSData) → Nat → List (Nat × JSData)
  | [], _ => []
  | (r, w) :: rest, k =>
    if r = k then objDelete rest k else (r, w) :: objDelete rest k

/-- The notifications a Selection fires (onSelect, onDeselect, onChange),
each select and deselect carrying its key and data payload. -/
inductive Ev where
  | select : Nat → JSData → Ev
  | deselect : Nat → JSData → Ev
  | change : Ev
deriving DecidableEq

/-- The state of an enyo.Selection component: the published multi flag,
the selected map, and lastSelected (unset on a fresh component). -/
structure Selection where
  multi : Bool
  selected : List (Nat × JSData)
  lastSelected : Option Nat
deriving DecidableEq

/-- A fresh component: create has run clear, lastSelected is unset, and
the published multi flag holds its configured value. -/
def Selection.init (b : Bool) : Selection :=
  { multi := b, selected := [], lastSelected := none }

/-- Removes all selections (the clear method). -/
def Selection.clear (s : Selection) : Selection :=
  { s with selected := [] }

/-- Returns the stored entry for the key, or undefined when absent
(the isSelected method returns this.selected brackets key). -/
def Selection.isSelected (s : Selection) (key : Nat) : JSData :=
  (objGet s.selected key).getD .undefined

/-- The setByKey method: when sel is true, stores data or-else true under
the key, records lastSelected, and fires onSelect with the stored value;
when sel is false, reads the previous value, deletes the entry, and fires
onDeselect with that previous value.  Either way onChange fires last. -/
def Selection.setByKey (s : Selection) (key : Nat) (sel : Bool) (data : JSData) :
    Selection × List Ev :=
  if sel then
    ({ s with selected := objSet s.selected key (jsOrTrue data),
              lastSelected := some key },
      [Ev.select key (jsOrTrue data), Ev.change])
  else
    ({ s with selected := objDelete s.selected key },
      [Ev.deselect key (s.isSelected key), Ev.change])

/-- The deselect method: setByKey with false when the key is currently
selected (its stored value is truthy), a no-op otherwise. -/
def Selection.deselect (s : Selection) (key : Nat) : Selection × List Ev :=
  if (s.isSelected key).truthy then s.setByKey key false .undefined
  else (s, [])

/-- Applying deselect to the possibly-unset lastSelected, as highlander
and toggle do; with numeric keys, deselecting an unset lastSelected is a
no-op because no entry is stored under the undefined key. -/
def Selection.deselectLast (s : Selection) : Selection × List Ev :=
  match s.lastSelected with
  | none => (s, [])
  | some k => s.deselect k

/-- The highlander method: in single mode, deselects lastSelected. -/
def Selection.highlander (s : Selection) : Selection × List Ev :=
  if s.multi then (s, []) else s.deselectLast

/-- The select method: in multi mode, toggles the key via setByKey; in
single mode, when the key is not already selected, runs highlander and
then selects the key; otherwise does nothing. -/
def Selection.select (s : Selection) (key : Nat) (data : JSData) :
    Selection × List Ev :=
  if s.multi then
    s.setByKey key (!(s.isSelected key).truthy) data
  else if !(s.isSelected key).truthy then
    let p1 := s.highlander
    let p2 := p1.1.setByKey key true data
    (p2.1, p1.2 ++ p2.2)
  else (s, [])

/-- The toggle method: outside multi mode, when lastSelected differs from
the key (including when it is unset), first deselects lastSelected; then
flips the key via setByKey with the negation of its current truthiness. -/
def Selection.toggle (s : Selection) (key : Nat) (data : JSData) :
    Selection × List Ev :=
  let p1 :=
    if s.multi = false ∧ s.lastSelected ≠ some key then s.deselectLast
    else (s, [])
  let p2 := p1.1.setByKey key (!(p1.1.isSelected key).truthy) data
  (p2.1, p1.2 ++ p2.2)

/-- The loop of the remove method over the entries of selected, building
the new object: entries below the removed key are kept, entries above it
are re-stored under their key minus one, the entry at the key is dropped. -/
def removeShift (key : Nat) : List (Nat × JSData) → List (Nat × JSData)
  | [] => []
  | (row, v) :: rest =>
    if row < key then (row, v) :: removeShift key rest
    else if key < row then (row - 1, v) :: removeShift key rest
    else removeShift key rest

/-- The remove method: replaces selected with the shifted object; it
fires no notifications and touches neither lastSelected nor multi. -/
def Selection.remove (s : Selection) (key : Nat) : Selection :=
  { s with selected := removeShift key s.selected }

/-- The getSelected method: returns the selected map. -/
def Selection.getSelected (s : Selection) : List (Nat × JSData) :=
  s.selected

/-- The multiChanged hook, run after the published multi flag is set:
when multi is now false it clears the selection, and it always fires
onChange. -/
def Selection.multiChanged (s : Selection) : Selection × List Ev :=
  if s.multi = false then (s.clear, [Ev.change]) else (s, [Ev.change])

/-- States reachable through the public interface from a fresh component
(with either configured multi flag). -/
inductive Reachable : Selection → Prop where
  | init (b : Bool) : Reachable (Selection.init b)
  | clear {s : Selection} : Reachable s → Reachable s.clear
  | setByKey {s : Selection} (k : Nat) (sel : Bool) (d : JSData) :
      Reachable s → Reachable (s.setByKey k sel d).1
  | select {s : Selection} (k : Nat) (d : JSData) :
      Reachable s → Reachable (s.select k d).1
  | deselect {s : Selection} (k : Nat) :
      Reachable s → Reachable (s.deselect k).1
  | toggle {s : Selection} (k : Nat) (d : JSData) :
      Reachable s → Reachable (s.toggle k d).1
  | remove {s : Selection} (k : Nat) :
      Reachable s → Reachable (s.remove k)
  | setMulti {s : Selection} (b : Bool) :
      Reachable s → Reachable ({ s with multi := b }.multiChanged).1

/-- Single-mode shape invariant from the spec: every key present in the
selection map is the lastSelected key (so the map has at most one entry,
and it is the entry of lastSelected, or the map is empty). -/
def SingleInv (s : Selection) : Prop :=
  ∀ j, (objGet s.selected j).isSome = true → s.lastSelected = some j

/-- Every payload stored in the selection map is truthy. -/
def StoredTruthy (s : Selection) : Prop :=
  ∀ j v, objGet s.selected j = some v → v.truthy = true

/-- The conjunction of the single-mode shape invariant and truthiness of
stored payloads; both hold of reachable single-mode states. -/
def GoodSingle (s : Selection) : Prop :=
  SingleInv s ∧ StoredTruthy s

theorem jsOrTrue_truthy (d : JSData) : (jsOrTrue d).truthy = true := by
  unfold jsOrTrue
  by_cases h : d.truthy = true
  · rw [if_pos h]; exact h
  · rw [if_neg h]; rfl

theorem objGet_objSet_self (m : List (Nat × JSData)) (k : Nat) (v : JSData) :
    objGet (objSet m k v) k = some v := by
  induction m with
  | nil => simp [objSet, objGet]
  | cons p rest ih =>
    obtain ⟨r, w⟩ := p
    by_cases h : r = k
    · subst h; simp [objSet, objGet]
    · simp [objSet, objGet, h, ih]

theorem objGet_objSet_ne (m : List (Nat × JSData)) (k j : Nat) (v : JSData)
    (h : j ≠ k) : objGet (objSet m k v) j = objGet m j := by
  induction m with
  | nil =>
    simp [objSet, objGet, Ne.symm h]
  | cons p rest ih =>
    obtain ⟨r, w⟩ := p
    by_cases hr : r = k
    · subst hr
      simp [objSet, objGet, Ne.symm h]
    · simp [objSet, objGet, hr, ih]

theorem objGet_objDelete_self (m : List (Nat × JSData)) (k : Nat) :
    objGet (objDelete m k) k = none := by
  induction m with
  | nil => simp [objDelete, objGet]
  | cons p rest ih =>
    obtain ⟨r, w⟩ := p
    by_cases h : r = k
    · simp [objDelete, h, ih]
    · simp [objDelete, objGet, h, ih]

theorem objGet_objDelete_ne (m : List (Nat × JSData)) (k j : Nat)
    (h : j ≠ k) : objGet (objDelete m k) j = objGet m j := by
  induction m with
  | nil => simp [objDelete]
  | cons p rest ih =>
    obtain ⟨r, w⟩ := p
    by_cases hr : r = k
    · subst hr
      simp [objDelete, objGet, Ne.symm h, ih]
    · simp [objDelete, objGet, hr, ih]

theorem objGet_removeShift (key : Nat) (m : List (Nat × JSData)) (j : Nat) :
    objGet (removeShift key m) j =
      if j < key then objGet m j else objGet m (j + 1) := by
  induction m with
  | nil => simp [removeShift, objGet]
  | cons p rest ih =>
    obtain ⟨row, v⟩ := p
    rcases Nat.lt_trichotomy row key with hlt | heq | hgt
    · have hnk : ¬ key < row := by omega
      by_cases hj : row = j
      · subst hj
        have hjk : row < key := hlt
        simp [removeShift, hlt, objGet, hjk]
      · by_cases hjk : j < key
        · simp [removeShift, hlt, objGet, hj, ih, hjk]
        · have hne1 : row ≠ j + 1 := by omega
          simp [removeShift, hlt, objGet, hj, ih, hjk, hne1]
    · have hnl : ¬ row < key := by omega
      have hnk : ¬ key < row := by omega
      by_cases hjk : j < key
      · have hne : row ≠ j := by omega
        simp [removeShift, hnl, hnk, objGet, hne, ih, hjk]
      · have hne : row ≠ j + 1 := by omega
        simp [removeShift, hnl, hnk, objGet, hne, ih, hjk]
    · have hnl : ¬ row < key := by omega
      by_cases hjk : j < key
      · have hne : row - 1 ≠ j := by omega
        have hne2 : row ≠ j := by omega
        simp [removeShift, hnl, hgt, objGet, hne, hne2, ih, hjk]
      · by_cases hj : row - 1 = j
        · have hrow : row = j + 1 := by omega
          have h1 : ¬ j + 1 < key := by omega
          have h2 : key < j + 1 := by omega
          simp [removeShift, objGet, hrow, h1, h2, hjk, hj]
        · have hne2 : row ≠ j + 1 := by omega
          simp [removeShift, hnl, hgt, objGet, hj, hne2, ih, hjk]

theorem storedTruthy_init (b : Bool) : StoredTruthy (Selection.init b) := by
  intro j v h
  simp [Selection.init, objGet] at h

theorem storedTruthy_clear (s : Selection) : StoredTruthy s.clear := by
  intro j v h
  simp [Selection.clear, objGet] at h

theorem storedTruthy_setByKey (s : Selection) (k : Nat) (sel : Bool) (d : JSData)
    (hs : StoredTruthy s) : StoredTruthy (s.setByKey k sel d).1 := by
  cases sel with
  | true =>
    intro j v h
    have hrw : (s.setByKey k true d).1.selected = objSet s.selected k (jsOrTrue d) := rfl
    rw [hrw] at h
    by_cases hj : j = k
    · subst hj
      rw [objGet_objSet_self] at h
      obtain rfl : jsOrTrue d = v := Option.some.inj h
      exact jsOrTrue_truthy d
    · rw [objGet_objSet_ne _ _ _ _ hj] at h
      exact hs j v h
  | false =>
    intro j v h
    have hrw : (s.setByKey k false d).1.selected = objDelete s.selected k := rfl
    rw [hrw] at h
    by_cases hj : j = k
    · subst hj
      rw [objGet_objDelete_self] at h
      cases h
    · rw [objGet_objDelete_ne _ _ _ hj] at h
      exact hs j v h

theorem storedTruthy_deselect (s : Selection) (k : Nat)
    (hs : StoredTruthy s) : StoredTruthy (s.deselect k).1 := by
  unfold Selection.deselect
  by_cases h : (s.isSelected k).truthy = true
  · rw [if_pos h]
    exact storedTruthy_setByKey s k false .undefined hs
  · rw [if_neg h]
    exact hs

theorem storedTruthy_deselectLast (s : Selection)
    (hs : StoredTruthy s) : StoredTruthy s.deselectLast.1 := by
  cases h : s.lastSelected with
  | none =>
    have hd : s.deselectLast = (s, []) := by simp [Selection.deselectLast, h]
    rw [hd]
    exact hs
  | some k =>
    have hd : s.deselectLast = s.deselect k := by simp [Selection.deselectLast, h]
    rw [hd]
    exact storedTruthy_deselect s k hs

theorem storedTruthy_highlander (s : Selection)
    (hs : StoredTruthy s) : StoredTruthy s.highlander.1 := by
  unfold Selection.highlander
  by_cases h : s.multi = true
  · rw [if_pos h]
    exact hs
  · rw [if_neg h]
    exact storedTruthy_deselectLast s hs

theorem storedTruthy_select (s : Selection) (k : Nat) (d : JSData)
    (hs : StoredTruthy s) : StoredTruthy (s.select k d).1 := by
  unfold Selection.select
  by_cases hm : s.multi = true
  · rw [if_pos hm]
    exact storedTruthy_setByKey s k _ d hs
  · rw [if_neg hm]
    by_cases ht : (!(s.isSelected k).truthy) = true
    · rw [if_pos ht]
      exact storedTruthy_setByKey s.highlander.1 k true d (storedTruthy_highlander s hs)
    · rw [if_neg ht]
      exact hs

theorem storedTruthy_toggle (s : Selection) (k : Nat) (d : JSData)
    (hs : StoredTruthy s) : StoredTruthy (s.toggle k d).1 := by
  unfold Selection.toggle
  by_cases h : s.multi = false ∧ s.lastSelected ≠ some k
  · rw [if_pos h]
    exact storedTruthy_setByKey s.deselectLast.1 k _ d (storedTruthy_deselectLast s hs)
  · rw [if_neg h]
    exact storedTruthy_setByKey s k _ d hs

theorem storedTruthy_remove (s : Selection) (k : Nat)
    (hs : StoredTruthy s) : StoredTruthy (s.remove k) := by
  intro j v h
  have hrs : objGet (removeShift k s.selected) j = some v := h
  rw [objGet_removeShift] at hrs
  by_cases hj : j < k
  · rw [if_pos hj] at hrs
    exact hs j v hrs
  · rw [if_neg hj] at hrs
    exact hs (j + 1) v hrs

theorem storedTruthy_multiChanged (s : Selection)
    (hs : StoredTruthy s) : StoredTruthy s.multiChanged.1 := by
  unfold Selection.multiChanged
  by_cases h : s.multi = false
  · rw [if_pos h]
    exact storedTruthy_clear s
  · rw [if_neg h]
    exact hs

theorem reachable_storedTruthy {s : Selection} (h : Reachable s) :
    StoredTruthy s := by
  induction h with
  | init b => exact storedTruthy_init b
  | clear _ ih => exact storedTruthy_clear _
  | setByKey k sel d _ ih => exact storedTruthy_setByKey _ k sel d ih
  | select k d _ ih => exact storedTruthy_select _ k d ih
  | deselect k _ ih => exact storedTruthy_deselect _ k ih
  | toggle k d _ ih => exact storedTruthy_toggle _ k d ih
  | remove k _ ih => exact storedTruthy_remove _ k ih
  | setMulti b _ ih => exact storedTruthy_multiChanged _ ih

theorem goodSingle_init (b : Bool) : GoodSingle (Selection.init b) := by
  constructor
  · intro j hj
    simp [Selection.init, objGet] at hj
  · exact storedTruthy_init b

theorem deselectLast_wipe (s : Selection) (hg : GoodSingle s) :
    (∀ j, objGet s.deselectLast.1.selected j = none) ∧
    s.deselectLast.1.lastSelected = s.lastSelected ∧
    s.deselectLast.1.multi = s.multi := by
  obtain ⟨hinv, htr⟩ := hg
  cases h : s.lastSelected with
  | none =>
    have hd : s.deselectLast = (s, []) := by simp [Selection.deselectLast, h]
    rw [hd]
    refine ⟨?_, h, rfl⟩
    intro j
    cases hjv : objGet s.selected j with
    | none => rfl
    | some v =>
      have hl : s.lastSelected = some j := hinv j (by rw [hjv]; rfl)
      rw [h] at hl
      simp at hl
  | some l =>
    have hd : s.deselectLast = s.deselect l := by simp [Selection.deselectLast, h]
    rw [hd]
    unfold Selection.deselect
    by_cases ht : (s.isSelected l).truthy = true
    · rw [if_pos ht]
      refine ⟨?_, h, rfl⟩
      intro j
      by_cases hj : j = l
      · subst hj
        exact objGet_objDelete_self _ _
      · show objGet (objDelete s.selected l) j = none
        rw [objGet_objDelete_ne _ _ _ hj]
        cases hjv : objGet s.selected j with
        | none => rfl
        | some v =>
          have hl : s.lastSelected = some j := hinv j (by rw [hjv]; rfl)
          rw [h] at hl
          have : l = j := Option.some.inj hl
          exact absurd this.symm hj
    · rw [if_neg ht]
      refine ⟨?_, h, rfl⟩
      intro j
      cases hjv : objGet s.selected j with
      | none => rfl
      | some v =>
        have hl : s.lastSelected = some j := hinv j (by rw [hjv]; rfl)
        rw [h] at hl
        have hlj : l = j := Option.some.inj hl
        cases hlj
        have hv : v.truthy = true := htr l v hjv
        have hsel : (s.isSelected l).truthy = true := by
          unfold Selection.isSelected
          rw [hjv]
          exact hv
        exact absurd hsel ht

theorem highlander_single (s : Selection) (hm : s.multi = false) :
    s.highlander = s.deselectLast := by
  unfold Selection.highlander
  rw [hm]
  rfl

theorem select_single_norm (s : Selection) (k : Nat) (d : JSData)
    (hm : s.multi = false) (hg : GoodSingle s) :
    (∃ w, w.truthy = true ∧ objGet (s.select k d).1.selected k = some w) ∧
    (∀ j, j ≠ k → objGet (s.select k d).1.selected j = none) ∧
    (s.select k d).1.lastSelected = some k ∧
    (s.select k d).1.multi = false := by
  obtain ⟨hinv, htr⟩ := hg
  have hmne : ¬ s.multi = true := by rw [hm]; exact Bool.false_ne_true
  unfold Selection.select
  rw [if_neg hmne]
  by_cases ht : (s.isSelected k).truthy = true
  · have hnott : ¬ ((!(s.isSelected k).truthy) = true) := by
      rw [ht]
      exact Bool.false_ne_true
    rw [if_neg hnott]
    cases hjv : objGet s.selected k with
    | none =>
      exfalso
      have : (s.isSelected k).truthy = false := by
        unfold Selection.isSelected
        rw [hjv]
        rfl
      rw [this] at ht
      exact Bool.false_ne_true ht
    | some v =>
      have hvt : v.truthy = true := htr k v hjv
      have hlast : s.lastSelected = some k := hinv k (by rw [hjv]; rfl)
      refine ⟨⟨v, hvt, rfl⟩, ?_, hlast, hm⟩
      intro j hj
      cases hjw : objGet s.selected j with
      | none => rfl
      | some w =>
        have hl : s.lastSelected = some j := hinv j (by rw [hjw]; rfl)
        rw [hlast] at hl
        exact absurd (Option.some.inj hl).symm hj
  · have hnott : (!(s.isSelected k).truthy) = true := by
      cases hb : (s.isSelected k).truthy with
      | true => exact absurd hb ht
      | false => rfl
    rw [if_pos hnott]
    have hwipe := deselectLast_wipe s ⟨hinv, htr⟩
    have hh : s.highlander = s.deselectLast := highlander_single s hm
    constructor
    · refine ⟨jsOrTrue d, jsOrTrue_truthy d, ?_⟩
      show objGet (objSet s.highlander.1.selected k (jsOrTrue d)) k = some (jsOrTrue d)
      exact objGet_objSet_self _ _ _
    constructor
    · intro j hj
      show objGet (objSet s.highlander.1.selected k (jsOrTrue d)) j = none
      rw [objGet_objSet_ne _ _ _ _ hj, hh]
      exact hwipe.1 j
    constructor
    · rfl
    · show s.highlander.1.multi = false
      rw [hh, hwipe.2.2, hm]

theorem goodSingle_clear (s : Selection) : GoodSingle s.clear := by
  constructor
  · intro j hj
    simp [Selection.clear, objGet] at hj
  · exact storedTruthy_clear s

theorem goodSingle_select (s : Selection) (k : Nat) (d : JSData)
    (hm : s.multi = false) (hg : GoodSingle s) : GoodSingle (s.select k d).1 := by
  obtain ⟨hx, hall, hlast, hmu⟩ := select_single_norm s k d hm hg
  constructor
  · intro j hj
    by_cases hjk : j = k
    · subst hjk
      exact hlast
    · rw [hall j hjk] at hj
      simp at hj
  · intro j v hv
    by_cases hjk : j = k
    · subst hjk
      obtain ⟨w, hw, hww⟩ := hx
      rw [hww] at hv
      obtain rfl : w = v := Option.some.inj hv
      exact hw
    · rw [hall j hjk] at hv
      cases hv

theorem goodSingle_deselect (s : Selection) (k : Nat)
    (hg : GoodSingle s) : GoodSingle (s.deselect k).1 := by
  obtain ⟨hinv, htr⟩ := hg
  unfold Selection.deselect
  by_cases ht : (s.isSelected k).truthy = true
  · rw [if_pos ht]
    constructor
    · intro j hj
      by_cases hjk : j = k
      · subst hjk
        rw [show (s.setByKey j false JSData.undefined).1.selected = objDelete s.selected j from rfl,
            objGet_objDelete_self] at hj
        simp at hj
      · rw [show (s.setByKey k false JSData.undefined).1.selected = objDelete s.selected k from rfl,
            objGet_objDelete_ne _ _ _ hjk] at hj
        exact hinv j hj
    · exact storedTruthy_setByKey s k false .undefined htr
  · rw [if_neg ht]
    exact ⟨hinv, htr⟩

theorem goodSingle_toggle (s : Selection) (k : Nat) (d : JSData)
    (hm : s.multi = false) (hg : GoodSingle s) : GoodSingle (s.toggle k d).1 := by
  unfold Selection.toggle
  by_cases hc : s.multi = false ∧ s.lastSelected ≠ some k
  · rw [if_pos hc]
    have hwipe := deselectLast_wipe s hg
    have hsel : (s.deselectLast.1.isSelected k).truthy = false := by
      unfold Selection.isSelected
      rw [hwipe.1 k]
      rfl
    show GoodSingle (s.deselectLast.1.setByKey k (!(s.deselectLast.1.isSelected k).truthy) d).1
    rw [hsel]
    constructor
    · intro j hj
      by_cases hjk : j = k
      · subst hjk
        rfl
      · rw [show ((s.deselectLast.1.setByKey k (!false) d).1.selected)
              = objSet s.deselectLast.1.selected k (jsOrTrue d) from rfl,
            objGet_objSet_ne _ _ _ _ hjk, hwipe.1 j] at hj
        simp at hj
    · exact storedTruthy_setByKey _ k _ d (storedTruthy_deselectLast s hg.2)
  · rw [if_neg hc]
    have hls : s.lastSelected = some k := by
      by_contra hne
      exact hc ⟨hm, hne⟩
    by_cases ht : (s.isSelected k).truthy = true
    · show GoodSingle (s.setByKey k (!(s.isSelected k).truthy) d).1
      rw [ht]
      constructor
      · intro j hj
        by_cases hjk : j = k
        · subst hjk
          rw [show (s.setByKey j (!true) d).1.selected = objDelete s.selected j from rfl,
              objGet_objDelete_self] at hj
          simp at hj
        · rw [show (s.setByKey k (!true) d).1.selected = objDelete s.selected k from rfl,
              objGet_objDelete_ne _ _ _ hjk] at hj
          have hlj := hg.1 j hj
          rw [hls] at hlj
          exact absurd (Option.some.inj hlj).symm hjk
      · exact storedTruthy_setByKey s k _ d hg.2
    · have hsel : (s.isSelected k).truthy = false := by
        cases hb : (s.isSelected k).truthy with
        | true => exact absurd hb ht
        | false => rfl
      show GoodSingle (s.setByKey k (!(s.isSelected k).truthy) d).1
      rw [hsel]
      constructor
      · intro j hj
        by_cases hjk : j = k
        · subst hjk
          rfl
        · rw [show (s.setByKey k (!false) d).1.selected = objSet s.selected k (jsOrTrue d) from rfl,
              objGet_objSet_ne _ _ _ _ hjk] at hj
          have hlj := hg.1 j hj
          rw [hls] at hlj
          exact absurd (Option.some.inj hlj).symm hjk
      · exact storedTruthy_setByKey s k _ d hg.2

theorem goodSingle_multiChanged (s : Selection) (hm : s.multi = false) :
    GoodSingle s.multiChanged.1 := by
  unfold Selection.multiChanged
  rw [if_pos hm]
  exact goodSingle_clear s

theorem toggle_multi (t : Selection) (k : Nat) (d : JSData) (hmt : t.multi = true) :
    t.toggle k d = t.setByKey k (!(t.isSelected k).truthy) d := by
  unfold Selection.toggle
  have hc : ¬ (t.multi = false ∧ t.lastSelected ≠ some k) := by
    intro hcc
    rw [hmt] at hcc
    exact absurd hcc.1 (by decide)
  rw [if_neg hc]
  rfl

/-- Claim C1, counterexample: the invariant fails on a reachable state and
is not preserved by every public operation.  From a fresh single-mode
component, the public setByKey(1, true) followed by setByKey(2, true)
reaches a state with multi false whose selection set holds two entries,
and whose entry at key 1 does not match lastSelected. -/
theorem selection_c1_cex :
    Reachable (((Selection.init false).setByKey 1 true
        JSData.undefined).1.setByKey 2 true JSData.undefined).1 ∧
    (((Selection.init false).setByKey 1 true
        JSData.undefined).1.setByKey 2 true JSData.undefined).1.multi = false ∧
    ¬ SingleInv (((Selection.init false).setByKey 1 true
        JSData.undefined).1.setByKey 2 true JSData.undefined).1 := by
  refine ⟨Reachable.setByKey 2 true JSData.undefined
      (Reachable.setByKey 1 true JSData.undefined (Reachable.init false)),
    rfl, ?_⟩
  intro hbad
  exact absurd (hbad 1 (by decide)) (by decide)

/-- Claim C1 (amended): when the multi flag is false, the single-mode
invariant (every key present in the selection set equals lastSelected —
hence at most one entry — and every stored payload is truthy) is
preserved by clear, select, deselect, toggle, and the multi-flag change
hook; it is not preserved by setByKey, which can insert a second entry,
nor by remove, which can shift the sole entry away from lastSelected. -/
theorem selection_c1 (s : Selection) (k : Nat) (d : JSData)
    (hm : s.multi = false) (hg : GoodSingle s) :
    GoodSingle s.clear ∧ GoodSingle (s.select k d).1 ∧
    GoodSingle (s.deselect k).1 ∧ GoodSingle (s.toggle k d).1 ∧
    GoodSingle s.multiChanged.1 :=
  ⟨goodSingle_clear s, goodSingle_select s k d hm hg,
   goodSingle_deselect s k hg, goodSingle_toggle s k d hm hg,
   goodSingle_multiChanged s hm⟩

/-- Claim C1 witness: the amended preservation statement applied to a
fresh single-mode component and key 1. -/
theorem selection_c1_witness :
    GoodSingle (Selection.init false).clear ∧
    GoodSingle ((Selection.init false).select 1 JSData.undefined).1 ∧
    GoodSingle ((Selection.init false).deselect 1).1 ∧
    GoodSingle ((Selection.init false).toggle 1 JSData.undefined).1 ∧
    GoodSingle (Selection.init false).multiChanged.1 :=
  selection_c1 (Selection.init false) 1 JSData.undefined rfl
    (goodSingle_init false)

/-- Claim C2, counterexample: in multi mode select toggles, so selecting
an already-selected key deselects it.  From a fresh multi-mode component,
select(1) leaves key 1 selected, but a second select(1) leaves
isSelected(1) falsy, refuting the claim as stated. -/
theorem selection_c2_cex :
    ((((Selection.init true).select 1 JSData.undefined).1.isSelected 1).truthy
        = true) ∧
    (((((Selection.init true).select 1 JSData.undefined).1.select 1
        JSData.undefined).1.isSelected 1).truthy = false) :=
  ⟨by decide, by decide⟩

/-- Claim C2 (amended): select(k) followed by isSelected(k) yields a
truthy value in single mode for every key, and in multi mode whenever k
was not already selected; when k is already selected in multi mode,
select toggles the key off instead. -/
theorem selection_c2 (s : Selection) (k : Nat) (d : JSData)
    (h : s.multi = false ∨ (s.isSelected k).truthy = false) :
    (((s.select k d).1).isSelected k).truthy = true := by
  unfold Selection.select
  by_cases hm : s.multi = true
  · rw [if_pos hm]
    have ht : (s.isSelected k).truthy = false := by
      rcases h with h | h
      · rw [h] at hm
        cases hm
      · exact h
    rw [ht]
    show (((s.setByKey k true d).1).isSelected k).truthy = true
    unfold Selection.isSelected
    rw [show (s.setByKey k true d).1.selected
        = objSet s.selected k (jsOrTrue d) from rfl]
    rw [objGet_objSet_self]
    exact jsOrTrue_truthy d
  · rw [if_neg hm]
    by_cases ht : (s.isSelected k).truthy = true
    · have hnott : ¬ ((!(s.isSelected k).truthy) = true) := by
        rw [ht]
        exact Bool.false_ne_true
      rw [if_neg hnott]
      exact ht
    · have hf : (s.isSelected k).truthy = false := by
        cases hb : (s.isSelected k).truthy with
        | true => exact absurd hb ht
        | false => rfl
      have hnott : (!(s.isSelected k).truthy) = true := by
        rw [hf]
        rfl
      rw [if_pos hnott]
      show (((s.highlander.1).setByKey k true d).1.isSelected k).truthy = true
      unfold Selection.isSelected
      rw [show ((s.highlander.1).setByKey k true d).1.selected
          = objSet s.highlander.1.selected k (jsOrTrue d) from rfl]
      rw [objGet_objSet_self]
      exact jsOrTrue_truthy d

/-- Claim C2 witness: the amended statement applied to a fresh
single-mode component and key 3. -/
theorem selection_c2_witness :
    ((((Selection.init false).select 3 JSData.undefined).1).isSelected 3).truthy
      = true :=
  selection_c2 (Selection.init false) 3 JSData.undefined (Or.inl rfl)

/-- Claim C3: remove(key) drops the entry at the key, re-stores every
entry with a greater key under its key minus one with its original
payload, and leaves entries with smaller keys unchanged; stated
pointwise, the new map at index j holds the old entry at j when j is
below the removed key and the old entry at j plus one otherwise. -/
theorem selection_c3 (s : Selection) (k j : Nat) :
    objGet (s.remove k).selected j =
      if j < k then objGet s.selected j else objGet s.selected (j + 1) :=
  objGet_removeShift k s.selected j

theorem select_single_notSel (t : Selection) (k : Nat) (d : JSData)
    (hmt : t.multi = false) (ht : (t.isSelected k).truthy = false) :
    t.select k d = ((t.highlander.1.setByKey k true d).1,
      t.highlander.2 ++ (t.highlander.1.setByKey k true d).2) := by
  unfold Selection.select
  rw [if_neg (by rw [hmt]; exact Bool.false_ne_true)]
  rw [if_pos (by rw [ht]; rfl)]

/-- Claim C4, counterexample: from an arbitrary state the claim fails.
In a single-mode state where keys 1 and 2 are both already stored
(reachable through public setByKey calls), select(1) and select(2) are
both no-ops: the second select emits no events at all — so no deselect
notification for key 1 precedes a select notification for key 2 — and
isSelected(1) stays truthy afterward. -/
theorem selection_c4_cex :
    ((({ multi := false,
         selected := [(1, JSData.bool true), (2, JSData.bool true)],
         lastSelected := some 2 } : Selection).select 1
        JSData.undefined).1.select 2 JSData.undefined).2 = [] ∧
    (((({ multi := false,
          selected := [(1, JSData.bool true), (2, JSData.bool true)],
          lastSelected := some 2 } : Selection).select 1
        JSData.undefined).1.select 2 JSData.undefined).1.isSelected 1).truthy
      = true :=
  ⟨by decide, by decide⟩

/-- Claim C4 (amended): in single mode, starting from any state that
satisfies the single-mode invariant (every present key equals
lastSelected and stored payloads are truthy), calling select(k1) then
select(k2) with k1 different from k2 makes the second call emit exactly
a deselect notification for k1, a change, a select notification for k2,
and a change — the deselect for k1 strictly before the select for k2 —
and afterward isSelected(k1) is undefined, isSelected(k2) is truthy,
and lastSelected is k2. -/
theorem selection_c4 (s : Selection) (k1 k2 : Nat)
    (hm : s.multi = false) (hg : GoodSingle s) (hne : k1 ≠ k2) :
    ∃ w : JSData,
      (((s.select k1 JSData.undefined).1).select k2 JSData.undefined).2 =
        [Ev.deselect k1 w, Ev.change, Ev.select k2 (JSData.bool true),
         Ev.change] ∧
      (((s.select k1 JSData.undefined).1).select k2
          JSData.undefined).1.isSelected k1 = JSData.undefined ∧
      ((((s.select k1 JSData.undefined).1).select k2
          JSData.undefined).1.isSelected k2).truthy = true ∧
      (((s.select k1 JSData.undefined).1).select k2
          JSData.undefined).1.lastSelected = some k2 := by
  obtain ⟨⟨w, hw, hwk⟩, hall, hlast, hmu⟩ :=
    select_single_norm s k1 JSData.undefined hm hg
  refine ⟨w, ?_⟩
  have hk2 : objGet (s.select k1 JSData.undefined).1.selected k2 = none :=
    hall k2 (Ne.symm hne)
  have hk2t : ((s.select k1 JSData.undefined).1.isSelected k2).truthy = false := by
    unfold Selection.isSelected
    rw [hk2]
    rfl
  have hw1 : (s.select k1 JSData.undefined).1.isSelected k1 = w := by
    unfold Selection.isSelected
    rw [hwk]
    rfl
  have hdsel : (s.select k1 JSData.undefined).1.deselect k1
      = (s.select k1 JSData.undefined).1.setByKey k1 false JSData.undefined := by
    unfold Selection.deselect
    rw [if_pos (by rw [hw1]; exact hw)]
  have hdl : (s.select k1 JSData.undefined).1.deselectLast
      = (s.select k1 JSData.undefined).1.deselect k1 := by
    simp [Selection.deselectLast, hlast]
  have hh : (s.select k1 JSData.undefined).1.highlander
      = (s.select k1 JSData.undefined).1.deselectLast :=
    highlander_single _ hmu
  have hmain : (s.select k1 JSData.undefined).1.select k2 JSData.undefined =
      ((((s.select k1 JSData.undefined).1.setByKey k1 false
          JSData.undefined).1.setByKey k2 true JSData.undefined).1,
       ((s.select k1 JSData.undefined).1.setByKey k1 false
          JSData.undefined).2 ++
       (((s.select k1 JSData.undefined).1.setByKey k1 false
          JSData.undefined).1.setByKey k2 true JSData.undefined).2) := by
    have hstep := select_single_notSel (s.select k1 JSData.undefined).1 k2
      JSData.undefined hmu hk2t
    rw [hh, hdl, hdsel] at hstep
    exact hstep
  refine ⟨?_, ?_, ?_, ?_⟩
  · rw [hmain]
    show ([Ev.deselect k1 ((s.select k1 JSData.undefined).1.isSelected k1),
           Ev.change] ++
          [Ev.select k2 (jsOrTrue JSData.undefined), Ev.change]) = _
    rw [hw1]
    rfl
  · rw [hmain]
    show (((s.select k1 JSData.undefined).1.setByKey k1 false
        JSData.undefined).1.setByKey k2 true JSData.undefined).1.isSelected k1
      = JSData.undefined
    unfold Selection.isSelected
    rw [show (((s.select k1 JSData.undefined).1.setByKey k1 false
          JSData.undefined).1.setByKey k2 true JSData.undefined).1.selected
        = objSet (objDelete (s.select k1 JSData.undefined).1.selected k1) k2
            (jsOrTrue JSData.undefined) from rfl]
    rw [objGet_objSet_ne _ _ _ _ hne, objGet_objDelete_self]
    rfl
  · rw [hmain]
    show ((((s.select k1 JSData.undefined).1.setByKey k1 false
        JSData.undefined).1.setByKey k2 true
        JSData.undefined).1.isSelected k2).truthy = true
    unfold Selection.isSelected
    rw [show (((s.select k1 JSData.undefined).1.setByKey k1 false
          JSData.undefined).1.setByKey k2 true JSData.undefined).1.selected
        = objSet (objDelete (s.select k1 JSData.undefined).1.selected k1) k2
            (jsOrTrue JSData.undefined) from rfl]
    rw [objGet_objSet_self]
    exact jsOrTrue_truthy JSData.undefined
  · rw [hmain]
    rfl

/-- Claim C4 witness: the amended statement applied to a fresh
single-mode component with keys 1 and 2. -/
theorem selection_c4_witness :
    ∃ w : JSData,
      ((((Selection.init false).select 1 JSData.undefined).1).select 2
          JSData.undefined).2 =
        [Ev.deselect 1 w, Ev.change, Ev.select 2 (JSData.bool true),
         Ev.change] ∧
      ((((Selection.init false).select 1 JSData.undefined).1).select 2
          JSData.undefined).1.isSelected 1 = JSData.undefined ∧
      (((((Selection.init false).select 1 JSData.undefined).1).select 2
          JSData.undefined).1.isSelected 2).truthy = true ∧
      ((((Selection.init false).select 1 JSData.undefined).1).select 2
          JSData.undefined).1.lastSelected = some 2 :=
  selection_c4 (Selection.init false) 1 2 rfl (goodSingle_init false)
    (by decide)

/-- Claim C5, counterexample: in multi mode with key 1 holding the
payload object 7, toggling key 1 twice with no data leaves the stored
entry as the default boolean true, not the original payload: the state
for the key is not returned to the original. -/
theorem selection_c5_cex :
    ({ multi := true, selected := [(1, JSData.obj 7)],
       lastSelected := some 1 } : Selection).multi = true ∧
    objGet ((({ multi := true, selected := [(1, JSData.obj 7)],
                lastSelected := some 1 } : Selection).toggle 1
        JSData.undefined).1.toggle 1 JSData.undefined).1.selected 1 ≠
      objGet ({ multi := true, selected := [(1, JSData.obj 7)],
                lastSelected := some 1 } : Selection).selected 1 :=
  ⟨rfl, by decide⟩

/-- Claim C5 (amended): in multi mode, for every state in which the
entry for k is absent or holds the default payload true, calling
toggle(k) twice with no data returns the entry for k (and hence
isSelected(k)) to its original value; when the original payload differs
from true, the second toggle re-stores the default true instead. -/
theorem selection_c5 (s : Selection) (k : Nat) (hm : s.multi = true)
    (h : objGet s.selected k = none ∨
         objGet s.selected k = some (JSData.bool true)) :
    objGet ((s.toggle k JSData.undefined).1.toggle k
        JSData.undefined).1.selected k = objGet s.selected k := by
  rcases h with h | h
  · have hsel : (!(s.isSelected k).truthy) = true := by
      unfold Selection.isSelected
      rw [h]
      rfl
    have h1 : s.toggle k JSData.undefined
        = s.setByKey k true JSData.undefined := by
      rw [toggle_multi s k JSData.undefined hm, hsel]
    have hA : ((s.setByKey k true JSData.undefined).1).multi = true := hm
    have h2sel : (!((s.setByKey k true JSData.undefined).1.isSelected k).truthy)
        = false := by
      unfold Selection.isSelected
      rw [show (s.setByKey k true JSData.undefined).1.selected
          = objSet s.selected k (jsOrTrue JSData.undefined) from rfl]
      rw [objGet_objSet_self]
      rfl
    have h2 : (s.setByKey k true JSData.undefined).1.toggle k JSData.undefined
        = (s.setByKey k true JSData.undefined).1.setByKey k false
            JSData.undefined := by
      rw [toggle_multi _ k JSData.undefined hA, h2sel]
    rw [h1, h2]
    rw [show ((s.setByKey k true JSData.undefined).1.setByKey k false
          JSData.undefined).1.selected
        = objDelete (objSet s.selected k (jsOrTrue JSData.undefined)) k
          from rfl]
    rw [objGet_objDelete_self, h]
  · have hsel : (!(s.isSelected k).truthy) = false := by
      unfold Selection.isSelected
      rw [h]
      rfl
    have h1 : s.toggle k JSData.undefined
        = s.setByKey k false JSData.undefined := by
      rw [toggle_multi s k JSData.undefined hm, hsel]
    have hA : ((s.setByKey k false JSData.undefined).1).multi = true := hm
    have h2sel : (!((s.setByKey k false JSData.undefined).1.isSelected k).truthy)
        = true := by
      unfold Selection.isSelected
      rw [show (s.setByKey k false JSData.undefined).1.selected
          = objDelete s.selected k from rfl]
      rw [objGet_objDelete_self]
      rfl
    have h2 : (s.setByKey k false JSData.undefined).1.toggle k JSData.undefined
        = (s.setByKey k false JSData.undefined).1.setByKey k true
            JSData.undefined := by
      rw [toggle_multi _ k JSData.undefined hA, h2sel]
    rw [h1, h2]
    rw [show ((s.setByKey k false JSData.undefined).1.setByKey k true
          JSData.undefined).1.selected
        = objSet (objDelete s.selected k) k (jsOrTrue JSData.undefined)
          from rfl]
    rw [objGet_objSet_self, h]
    rfl

/-- Claim C5 witness: the amended statement applied to a fresh
multi-mode component and key 1. -/
theorem selection_c5_witness :
    objGet (((Selection.init true).toggle 1 JSData.undefined).1.toggle 1
        JSData.undefined).1.selected 1
      = objGet (Selection.init true).selected 1 :=
  selection_c5 (Selection.init true) 1 rfl (Or.inl rfl)

/-- Claim C6: setByKey(k, false, d) removes the entry for k and leaves
every other entry unchanged, and emits exactly a deselect notification
carrying the key and the previously stored value (undefined when none
was stored), followed by a change notification; this holds whether or
not k was selected beforehand. -/
theorem selection_c6 (s : Selection) (k : Nat) (d : JSData) :
    (∀ j, objGet (s.setByKey k false d).1.selected j =
        if j = k then none else objGet s.selected j) ∧
    (s.setByKey k false d).2 = [Ev.deselect k (s.isSelected k), Ev.change] := by
  constructor
  · intro j
    rw [show (s.setByKey k false d).1.selected = objDelete s.selected k
        from rfl]
    by_cases hj : j = k
    · subst hj
      rw [if_pos rfl]
      exact objGet_objDelete_self _ _
    · rw [if_neg hj]
      exact objGet_objDelete_ne _ _ _ hj
  · rfl

/-- Claim C7: deselecting a key that has no entry in the selection set
is a no-op: the state (selection set, lastSelected, multi flag) is
returned unchanged and no notification is emitted; the operation is a
total function, so no error is raised. -/
theorem selection_c7 (s : Selection) (k : Nat)
    (h : objGet s.selected k = none) : s.deselect k = (s, []) := by
  have ht : (s.isSelected k).truthy = false := by
    unfold Selection.isSelected
    rw [h]
    rfl
  unfold Selection.deselect
  rw [if_neg (by rw [ht]; exact Bool.false_ne_true)]

/-- Claim C7 witness: deselecting the never-selected key 5 on a fresh
component is a no-op. -/
theorem selection_c7_witness :
    objGet (Selection.init false).selected 5 = none ∧
    (Selection.init false).deselect 5 = (Selection.init false, []) :=
  ⟨rfl, selection_c7 (Selection.init false) 5 rfl⟩

/-- Claim C8: remove(k) leaves lastSelected unchanged (never decremented
or cleared, even when it equals or exceeds k) and leaves the multi flag
unchanged; only the selected map is modified. -/
theorem selection_c8 (s : Selection) (k : Nat) :
    (s.remove k).lastSelected = s.lastSelected ∧
    (s.remove k).multi = s.multi :=
  ⟨rfl, rfl⟩

/-- Claim C9: on every reachable state, isSelected(k) is truthy exactly
when k has an entry in the selection set (every stored value is truthy),
and setByKey(k, true, d) stores d itself when d is truthy and the
boolean true when d is absent or falsy, isSelected(k) then returning
that stored payload. -/
theorem selection_c9 (s : Selection) (hr : Reachable s) (k : Nat)
    (d : JSData) :
    (s.isSelected k).truthy = (objGet s.selected k).isSome ∧
    (s.setByKey k true d).1.isSelected k =
      (if d.truthy then d else JSData.bool true) := by
  constructor
  · have htr := reachable_storedTruthy hr
    unfold Selection.isSelected
    cases hjv : objGet s.selected k with
    | none => rfl
    | some v =>
      show v.truthy = true
      exact htr k v hjv
  · unfold Selection.isSelected
    rw [show (s.setByKey k true d).1.selected
        = objSet s.selected k (jsOrTrue d) from rfl]
    rw [objGet_objSet_self]
    rfl

/-- Claim C9 witness: the statement applied to a fresh component, key 0,
and an absent data argument. -/
theorem selection_c9_witness :
    ((Selection.init false).isSelected 0).truthy
      = (objGet (Selection.init false).selected 0).isSome ∧
    ((Selection.init false).setByKey 0 true JSData.undefined).1.isSelected 0
      = (if JSData.undefined.truthy then JSData.undefined
         else JSData.bool true) :=
  selection_c9 (Selection.init false) (Reachable.init false) 0
    JSData.undefined

/-- Claim C10: in single mode, select(k, d) when k is already selected
is a complete no-op: the state is returned unchanged (so the selection
set, lastSelected, and the stored payload for k keep their values and
the new d is discarded) and no notification is emitted. -/
theorem selection_c10 (s : Selection) (k : Nat) (d : JSData)
    (hm : s.multi = false) (h : (s.isSelected k).truthy = true) :
    s.select k d = (s, []) := by
  unfold Selection.select
  rw [if_neg (by rw [hm]; exact Bool.false_ne_true)]
  rw [if_neg (by rw [h]; exact Bool.false_ne_true)]

/-- Claim C10 witness: on a single-mode state with key 3 selected,
select(3) with a fresh data object is a no-op. -/
theorem selection_c10_witness :
    ({ multi := false, selected := [(3, JSData.bool true)],
       lastSelected := some 3 } : Selection).multi = false ∧
    (({ multi := false, selected := [(3, JSData.bool true)],
        lastSelected := some 3 } : Selection).isSelected 3).truthy = true ∧
    ({ multi := false, selected := [(3, JSData.bool true)],
       lastSelected := some 3 } : Selection).select 3 (JSData.obj 9)
      = (({ multi := false, selected := [(3, JSData.bool true)],
            lastSelected := some 3 } : Selection), []) :=
  ⟨rfl, by decide,
   selection_c10 ({ multi := false, selected := [(3, JSData.bool true)],
                    lastSelected := some 3 } : Selection) 3 (JSData.obj 9)
     rfl (by decide)⟩
